import Mathlib

set_option autoImplicit false

/-!
Verification development for the graph_project ingestion and sentiment
enrichment pipeline.

The Python sources embedded here:
- `app/services/huggingface_service.py` — classifier adapter
  (`analyze_sentiment`, `_process_single_result`, `batch_analyze_sentiment`);
- `app/services/sentiment_workflow.py` — `process_missing_sentiments`,
  query-parameter construction and the batch loop;
- `app/routers/pipeline.py` — `dataset_to_graph`: date-parameter defaults,
  chunked CSV reading, price-row metrics, tweet-row construction and the
  content hash identity.

External collaborators (the HuggingFace inference client and the Neo4j
store) are modelled as oracle functions returning `Except Unit _`, where
`Except.error` stands for a raised exception. Python floats are modelled
as `ℚ`; the claims settled here depend only on exact arithmetic (division
guards, comparisons with 0.5), not on rounding behaviour.
-/

/-- One item of a text-classification response: a label with a score.
Mirrors the `{"label": ..., "score": ...}` dicts returned by
`client.text_classification`. -/
structure LabelScore where
  label : String
  score : ℚ
deriving Repr, DecidableEq

/-- The result shape produced by the classifier adapter:
`{"sentiment": 0 or 1, "confidence": float}`. -/
structure SentimentResult where
  sentiment : Int
  confidence : ℚ
deriving Repr, DecidableEq

/-- Stable insertion step for descending sort by score: `x` is placed
before the first element whose score it meets or exceeds, so elements
with equal scores keep their original relative order — the behaviour of
Python's stable `sorted(result, key=lambda x: x.get("score", 0),
reverse=True)` in `_process_single_result`. -/
def insertByScoreDesc (x : LabelScore) : List LabelScore → List LabelScore
  | [] => [x]
  | y :: ys => if y.score ≤ x.score then x :: y :: ys else y :: insertByScoreDesc x ys

/-- Stable descending sort by score (see `insertByScoreDesc`). -/
def sortByScoreDesc : List LabelScore → List LabelScore
  | [] => []
  | x :: xs => insertByScoreDesc x (sortByScoreDesc xs)

/-- Embeds `HuggingFaceService._process_single_result`
(huggingface_service.py lines 54-83): sort the response items by score
descending, take the top one, map label "positive" (case-insensitively)
to sentiment 1 and anything else to 0, demote a positive below score 0.5
to 0, and return the top score as confidence. An empty (or non-list,
which the embedding's typing excludes) result yields the default
`{"sentiment": 0, "confidence": 0.0}`. -/
def processSingleResult (result : List LabelScore) : SentimentResult :=
  match sortByScoreDesc result with
  | [] => ⟨0, 0⟩
  | top :: _ =>
    let label := top.label.toLower
    let score := top.score
    let sentiment : Int := if label = "positive" then 1 else 0
    let confidence := score
    let sentiment := if sentiment = 1 ∧ confidence < 1/2 then 0 else sentiment
    ⟨sentiment, confidence⟩

/-- Embeds `HuggingFaceService.analyze_sentiment` (huggingface_service.py
lines 31-52). The remote call `client.text_classification` is an oracle
`client`; `Except.error` models a raised exception, which the method
catches, returning the default result. -/
def analyze_sentiment (client : String → Except Unit (List LabelScore))
    (text : String) : SentimentResult :=
  match client text with
  | .error _ => ⟨0, 0⟩
  | .ok result => processSingleResult result

/-- An insertion into the descending sort is never empty. -/
lemma insertByScoreDesc_ne_nil (x : LabelScore) (l : List LabelScore) :
    insertByScoreDesc x l ≠ [] := by
  cases l with
  | nil => simp [insertByScoreDesc]
  | cons y ys =>
    simp only [insertByScoreDesc]
    split <;> simp

/-- C5. The sentiment derived from a classifier response is 1 exactly when
the top-scored item's label is (case-insensitively) "positive" and its
score is at least 0.5; the returned confidence is the top score itself. -/
theorem C5_label_threshold_mapping (result : List LabelScore)
    (top : LabelScore) (rest : List LabelScore)
    (h : sortByScoreDesc result = top :: rest) :
    (processSingleResult result).confidence = top.score ∧
      ((processSingleResult result).sentiment = 1 ↔
        (top.label.toLower = "positive" ∧ 1/2 ≤ top.score)) := by
  constructor
  · simp [processSingleResult, h]
  · simp only [processSingleResult, h]
    by_cases hl : top.label.toLower = "positive"
    · by_cases hs : top.score < 1/2
      · simp [hl, hs]
      · simp [hl, hs, not_lt.mp hs]
    · simp [hl]

/-- Concrete instance of `C5_label_threshold_mapping`: a single response
item labelled "Positive" with score 0.7 maps to sentiment 1 with
confidence 0.7. -/
theorem C5_label_threshold_mapping_witness :
    (processSingleResult [⟨"Positive", 7/10⟩]).confidence = (7:ℚ)/10 ∧
      ((processSingleResult [⟨"Positive", 7/10⟩]).sentiment = 1 ↔
        (("Positive":String).toLower = "positive" ∧ 1/2 ≤ (7:ℚ)/10)) :=
  C5_label_threshold_mapping [⟨"Positive", 7/10⟩] ⟨"Positive", 7/10⟩ [] (by rfl)

/-- C10. `analyze_sentiment` never propagates a failure of the remote
classification call: when the call raises, the default result
`{"sentiment": 0, "confidence": 0.0}` is returned — which is also a value
an ordinary successful classification can produce (an empty response
list), so the caller cannot tell the two apart. -/
theorem C10_analyze_sentiment_total
    (client : String → Except Unit (List LabelScore)) (text : String)
    (h : client text = .error ()) :
    analyze_sentiment client text = ⟨0, 0⟩ ∧
      analyze_sentiment (fun _ => .ok []) text = ⟨0, 0⟩ := by
  constructor
  · simp [analyze_sentiment, h]
  · simp [analyze_sentiment, processSingleResult, sortByScoreDesc]

/-- Concrete instance of `C10_analyze_sentiment_total`: an always-raising
client yields the default result. -/
theorem C10_analyze_sentiment_total_witness :
    analyze_sentiment (fun _ => .error ()) "market is up" = ⟨0, 0⟩ ∧
      analyze_sentiment (fun _ => .ok []) "market is up" = ⟨0, 0⟩ :=
  C10_analyze_sentiment_total (fun _ => .error ()) "market is up" rfl

/-- A fetched tweet row as returned by the FETCH query of
`process_missing_sentiments`: `RETURN t.id AS id, t.text AS text`.
An absent text is modelled as the empty string, matching
`tweet_record.get("text", "")`. -/
structure Tweet where
  id : String
  text : String
deriving Repr, DecidableEq

/-- The three counters accumulated by the workflow's batch loop
(`tweets_processed`, `tweets_updated`, `errors`). -/
structure EnrichCounters where
  processed : Nat
  updated : Nat
  errors : Nat
deriving Repr, DecidableEq

/-- The external collaborators of the enrichment workflow, as oracles.
`Except.error ()` models a raised exception.
- `batchClassify` — `hf_service.batch_analyze_sentiment(texts)`;
- `itemClassify` — `hf_service.analyze_sentiment(text)` in the per-item
  fallback path;
- `updateOne` — the single-tweet `neo4j_service.run_query` UPDATE,
  returning the store's reported `updated` count;
- `updateBatch` — the UNWIND batch UPDATE, returning the reported
  `updated` count. -/
structure EnrichOracles where
  batchClassify : List String → Except Unit (List SentimentResult)
  itemClassify : String → Except Unit SentimentResult
  updateOne : String → SentimentResult → Except Unit Nat
  updateBatch : List (String × SentimentResult) → Except Unit Nat

/-- Embeds `valid_batch_size = max(1, min(batch_size, 100))`
(sentiment_workflow.py line 104). -/
def validBatchSize (batchSize : Int) : Nat := (max 1 (min batchSize 100)).toNat

/-- Embeds the slicing loop `for i in range(0, len(tweets),
valid_batch_size): batch = tweets[i:i+valid_batch_size]`
(sentiment_workflow.py lines 106-107): consecutive slices of size `n`,
the last possibly shorter. The first argument of the recursion is a fuel
(instantiated to the list length by `toBatches`) making the recursion
structural; the `n = 0` and exhausted-fuel branches are unreachable when
the fuel bounds the length and `n ≥ 1`, as `validBatchSize` guarantees. -/
def toBatchesAux {α : Type _} (n : Nat) : Nat → List α → List (List α)
  | _, [] => []
  | 0, l => [l]
  | fuel + 1, x :: xs =>
    if n = 0 then [x :: xs]
    else (x :: xs).take n :: toBatchesAux n fuel ((x :: xs).drop n)

/-- Consecutive slices of size `n` (the last possibly shorter), driven by
a fuel bounded below by the list length so the recursion is structural;
see `toBatchesAux`. -/
def toBatches {α : Type _} (n : Nat) (l : List α) : List (List α) :=
  toBatchesAux n l.length l

/-- The emptiness test `if not tweet_text` applied to a fetched tweet's
text (sentiment_workflow.py lines 117 and 174). -/
def textEmpty (t : Tweet) : Bool := t.text = ""

/-- Embeds one iteration of the per-item fallback loop
(sentiment_workflow.py lines 170-205): an empty text counts an error; a
classification or update exception counts an error; otherwise the post
counts as processed, and as updated when the store reports a positive
matched count. -/
def perItemStep (O : EnrichOracles) (acc : EnrichCounters) (t : Tweet) :
    EnrichCounters :=
  if textEmpty t then { acc with errors := acc.errors + 1 }
  else
    match O.itemClassify t.text with
    | .error _ => { acc with errors := acc.errors + 1 }
    | .ok res =>
      match O.updateOne t.id res with
      | .error _ => { acc with errors := acc.errors + 1 }
      | .ok n =>
        let acc := if 0 < n then { acc with updated := acc.updated + 1 } else acc
        { acc with processed := acc.processed + 1 }

/-- The per-item fallback pass over a whole batch (the body of the
`except` branch, sentiment_workflow.py lines 168-205). -/
def perItemPass (O : EnrichOracles) (acc : EnrichCounters)
    (batch : List Tweet) : EnrichCounters :=
  batch.foldl (perItemStep O) acc

/-- Embeds one iteration of the batch loop of `process_missing_sentiments`
(sentiment_workflow.py lines 106-205): posts with empty text are counted
as errors up front; the non-empty texts go to `batchClassify`; on success
the results are paired positionally with the tweet ids (`if j <
len(tweet_ids)` — excess results are ignored and excess ids are dropped),
each pair counting as processed, and one batch update is issued whose
failure adds one error per pair; on a classification exception the whole
batch is re-walked per-item by `perItemPass`. -/
def processBatch (O : EnrichOracles) (acc : EnrichCounters)
    (batch : List Tweet) : EnrichCounters :=
  let emptyCount := (batch.filter textEmpty).length
  let nonEmpty := batch.filter (fun t => !textEmpty t)
  let acc1 := { acc with errors := acc.errors + emptyCount }
  if nonEmpty.isEmpty then acc1
  else
    match O.batchClassify (nonEmpty.map Tweet.text) with
    | .ok results =>
      let updates := List.zip (nonEmpty.map Tweet.id) results
      let acc2 := { acc1 with processed := acc1.processed + updates.length }
      if updates.isEmpty then acc2
      else
        match O.updateBatch updates with
        | .ok n => { acc2 with updated := acc2.updated + n }
        | .error _ => { acc2 with errors := acc2.errors + updates.length }
    | .error _ => perItemPass O acc1 batch

/-- Embeds the counter bookkeeping of `process_missing_sentiments`
(sentiment_workflow.py lines 99-216) for a given fetched tweet list: slice
into batches of `validBatchSize batchSize` and fold `processBatch` from
zeroed counters. (The early returns for a service-initialisation or fetch
failure, and the query construction, are modelled separately.) -/
def processMissingSentiments (O : EnrichOracles) (tweets : List Tweet)
    (batchSize : Int) : EnrichCounters :=
  (toBatches (validBatchSize batchSize) tweets).foldl (processBatch O) ⟨0, 0, 0⟩

/-- With enough fuel and a positive slice size, concatenating the slices
gives back the original list. -/
lemma toBatchesAux_join {α : Type _} (n : Nat) (hn : n ≠ 0) :
    ∀ (fuel : Nat) (l : List α), l.length ≤ fuel →
      (toBatchesAux n fuel l).flatten = l
  | fuel, [] => by cases fuel <;> intro _ <;> simp [toBatchesAux]
  | 0, x :: xs => by intro hlen; simp at hlen
  | fuel + 1, x :: xs => by
    intro hlen
    have hdrop : ((x :: xs).drop n).length ≤ fuel := by
      simp only [List.length_drop, List.length_cons]
      simp only [List.length_cons] at hlen
      omega
    simp only [toBatchesAux, if_neg hn, List.flatten_cons]
    rw [toBatchesAux_join n hn fuel ((x :: xs).drop n) hdrop]
    exact List.take_append_drop n (x :: xs)

/-- Concatenating the batches of `toBatches` gives back the list. -/
lemma toBatches_join {α : Type _} (n : Nat) (hn : n ≠ 0) (l : List α) :
    (toBatches n l).flatten = l :=
  toBatchesAux_join n hn l.length l le_rfl

/-- Every slice produced with enough fuel has at most `n` elements. -/
lemma toBatchesAux_length_le {α : Type _} (n : Nat) (hn : n ≠ 0) :
    ∀ (fuel : Nat) (l : List α), l.length ≤ fuel →
      ∀ c ∈ toBatchesAux n fuel l, c.length ≤ n
  | fuel, [] => by cases fuel <;> intro _ c hc <;> simp [toBatchesAux] at hc
  | 0, x :: xs => by intro hlen; simp at hlen
  | fuel + 1, x :: xs => by
    intro hlen c hc
    have hdrop : ((x :: xs).drop n).length ≤ fuel := by
      simp only [List.length_drop, List.length_cons]
      simp only [List.length_cons] at hlen
      omega
    simp only [toBatchesAux, if_neg hn, List.mem_cons] at hc
    rcases hc with hc | hc
    · subst hc
      rw [List.length_take]
      omega
    · exact toBatchesAux_length_le n hn fuel ((x :: xs).drop n) hdrop c hc

/-- Every batch produced by `toBatches` has at most `n` elements. -/
lemma toBatches_length_le {α : Type _} (n : Nat) (hn : n ≠ 0) (l : List α) :
    ∀ c ∈ toBatches n l, c.length ≤ n :=
  toBatchesAux_length_le n hn l.length l le_rfl

/-- The clamped batch size is never zero. -/
lemma validBatchSize_pos (batchSize : Int) : validBatchSize batchSize ≠ 0 := by
  simp only [validBatchSize]
  omega

/-- Splitting a tweet list by emptiness of the text partitions it. -/
lemma filter_text_partition (l : List Tweet) :
    (l.filter textEmpty).length
        + (l.filter (fun t => !textEmpty t)).length = l.length := by
  induction l with
  | nil => simp
  | cons t ts ih =>
    cases h : textEmpty t <;> simp [List.filter_cons, h] <;> omega

/-- A list with a nonzero length is not `isEmpty`. -/
lemma isEmpty_false_of_length_ne {α : Type _} (l : List α)
    (h : l.length ≠ 0) : l.isEmpty = false := by
  cases l with
  | nil => simp at h
  | cons x xs => rfl

/-- Counter bookkeeping of one batch iteration, under a classifier that
always answers with one result per input text and a store whose batch
update never raises: the batch adds its non-empty-text posts to
`processed` and its empty-text posts to `errors`. -/
lemma processBatch_counts (O : EnrichOracles)
    (hB : ∀ ts, ∃ rs, O.batchClassify ts = .ok rs ∧ rs.length = ts.length)
    (hU : ∀ ups, ∃ n, O.updateBatch ups = .ok n)
    (acc : EnrichCounters) (batch : List Tweet) :
    (processBatch O acc batch).processed
        = acc.processed + (batch.filter (fun t => !textEmpty t)).length ∧
      (processBatch O acc batch).errors
        = acc.errors + (batch.filter textEmpty).length := by
  by_cases hne : (batch.filter (fun t => !textEmpty t)).isEmpty
  · have hnil : batch.filter (fun t => !textEmpty t) = [] :=
      List.isEmpty_iff.mp hne
    rw [processBatch]
    simp only [hne, if_true, hnil, List.length_nil, Nat.add_zero]
    exact ⟨rfl, rfl⟩
  · obtain ⟨rs, hrs, hlen⟩ :=
      hB ((batch.filter (fun t => !textEmpty t)).map Tweet.text)
    obtain ⟨n, hub⟩ :=
      hU (((batch.filter (fun t => !textEmpty t)).map Tweet.id).zip rs)
    have hzlen :
        (((batch.filter (fun t => !textEmpty t)).map Tweet.id).zip rs).length
          = (batch.filter (fun t => !textEmpty t)).length := by
      rw [List.length_zip, List.length_map, hlen, List.length_map, min_self]
    have hzne :
        (((batch.filter (fun t => !textEmpty t)).map Tweet.id).zip rs).isEmpty
          = false := by
      refine isEmpty_false_of_length_ne _ ?_
      rw [hzlen]
      intro h0
      exact hne (List.isEmpty_iff.mpr (List.length_eq_zero.mp h0))
    rw [processBatch]
    simp only [Bool.not_eq_true] at hne
    simp only [hne, Bool.false_eq_true, if_false, hrs, hzne, hub, hzlen]
    exact ⟨trivial, trivial⟩

/-- Folding `processBatch` over a list of batches adds, under the same
oracle hypotheses, the non-empty-text posts of all batches to `processed`
and the empty-text posts to `errors`. -/
lemma foldl_processBatch_counts (O : EnrichOracles)
    (hB : ∀ ts, ∃ rs, O.batchClassify ts = .ok rs ∧ rs.length = ts.length)
    (hU : ∀ ups, ∃ n, O.updateBatch ups = .ok n) :
    ∀ (bs : List (List Tweet)) (acc : EnrichCounters),
      (bs.foldl (processBatch O) acc).processed
          = acc.processed + (bs.flatten.filter (fun t => !textEmpty t)).length ∧
        (bs.foldl (processBatch O) acc).errors
          = acc.errors + (bs.flatten.filter textEmpty).length
  | [], acc => by simp
  | b :: bs, acc => by
    have hstep := processBatch_counts O hB hU acc b
    have ih := foldl_processBatch_counts O hB hU bs (processBatch O acc b)
    simp only [List.foldl_cons, List.flatten_cons, List.filter_append,
      List.length_append] at *
    constructor
    · rw [ih.1, hstep.1]
      omega
    · rw [ih.2, hstep.2]
      omega

/-- Oracle set on which the batch loop loses a fetched post: batch
classification succeeds but returns an empty result list — the shape
`batch_analyze_sentiment` produces when the underlying API answers an
empty list (huggingface_service.py lines 107-109). -/
def emptyBatchResultOracles : EnrichOracles where
  batchClassify := fun _ => .ok []
  itemClassify := fun _ => .ok ⟨0, 0⟩
  updateOne := fun _ _ => .ok 1
  updateBatch := fun _ => .ok 0

/-- C1 counterexample. One post is fetched with non-empty text, batch
classification returns an empty (misaligned) result list, and the
workflow finishes with `processed = updated = errors = 0`: the fetched
post is in no bucket at all, so it is not accounted for in exactly one of
the result buckets. -/
theorem C1_counterexample :
    (processMissingSentiments emptyBatchResultOracles
          [⟨"id1", "bullish on tech"⟩] 100).processed
        + (processMissingSentiments emptyBatchResultOracles
          [⟨"id1", "bullish on tech"⟩] 100).errors
      ≠ ([(⟨"id1", "bullish on tech"⟩ : Tweet)]).length := by decide

/-- C1 amended. Accounting of the enrichment workflow under the
conditions the claim implicitly assumes: whenever batch classification
always returns exactly one result per input text (never raising) and the
batch store update never raises, every fetched post lands in exactly one
bucket — `processed` collects precisely the posts with non-empty text,
`errors` precisely those with empty text, and the two add up to the
number of fetched posts. (Without these conditions the code violates the
claim: a short result list drops the unmatched posts from all counters, a
failed batch update counts its posts in both `processed` and `errors`,
and a classification exception counts empty-text posts as two errors
each.) -/
theorem C1_fetch_accounting (O : EnrichOracles) (tweets : List Tweet)
    (batchSize : Int)
    (hB : ∀ ts, ∃ rs, O.batchClassify ts = .ok rs ∧ rs.length = ts.length)
    (hU : ∀ ups, ∃ n, O.updateBatch ups = .ok n) :
    (processMissingSentiments O tweets batchSize).processed
        = (tweets.filter (fun t => !textEmpty t)).length ∧
      (processMissingSentiments O tweets batchSize).errors
        = (tweets.filter textEmpty).length ∧
      (processMissingSentiments O tweets batchSize).processed
          + (processMissingSentiments O tweets batchSize).errors
        = tweets.length := by
  have hjoin := toBatches_join (validBatchSize batchSize)
    (validBatchSize_pos batchSize) tweets
  have h := foldl_processBatch_counts O hB hU
    (toBatches (validBatchSize batchSize) tweets) ⟨0, 0, 0⟩
  rw [hjoin] at h
  have hp : (processMissingSentiments O tweets batchSize).processed
      = (tweets.filter (fun t => !textEmpty t)).length := by
    rw [processMissingSentiments, h.1]
    simp
  have he : (processMissingSentiments O tweets batchSize).errors
      = (tweets.filter textEmpty).length := by
    rw [processMissingSentiments, h.2]
    simp
  refine ⟨hp, he, ?_⟩
  rw [hp, he]
  have hpart := filter_text_partition tweets
  omega

/-- Oracle set with a well-behaved classifier (one default result per
input text, never raising) and a store whose batch update reports one
match per update row. -/
def alignedOracles : EnrichOracles where
  batchClassify := fun ts => .ok (ts.map (fun _ => ⟨0, 0⟩))
  itemClassify := fun _ => .ok ⟨0, 0⟩
  updateOne := fun _ _ => .ok 1
  updateBatch := fun ups => .ok ups.length

/-- Concrete instance of `C1_fetch_accounting`: an aligned classifier and
a reliable store over one empty-text and two non-empty posts give
`processed = 2`, `errors = 1`, summing to the 3 fetched posts. -/
theorem C1_fetch_accounting_witness :
    (processMissingSentiments alignedOracles
          [⟨"a", "up"⟩, ⟨"b", ""⟩, ⟨"c", "down"⟩] 2).processed
        = ([⟨"a", "up"⟩, ⟨"b", ""⟩, ⟨"c", "down"⟩].filter
            (fun t => !textEmpty t)).length ∧
      (processMissingSentiments alignedOracles
          [⟨"a", "up"⟩, ⟨"b", ""⟩, ⟨"c", "down"⟩] 2).errors
        = ([⟨"a", "up"⟩, ⟨"b", ""⟩, ⟨"c", "down"⟩].filter textEmpty).length ∧
      (processMissingSentiments alignedOracles
          [⟨"a", "up"⟩, ⟨"b", ""⟩, ⟨"c", "down"⟩] 2).processed
          + (processMissingSentiments alignedOracles
            [⟨"a", "up"⟩, ⟨"b", ""⟩, ⟨"c", "down"⟩] 2).errors
        = ([⟨"a", "up"⟩, ⟨"b", ""⟩, ⟨"c", "down"⟩] : List Tweet).length :=
  C1_fetch_accounting alignedOracles [⟨"a", "up"⟩, ⟨"b", ""⟩, ⟨"c", "down"⟩] 2
    (fun ts => ⟨ts.map (fun _ => ⟨0, 0⟩), rfl, by simp⟩)
    (fun ups => ⟨ups.length, rfl⟩)

/-- Oracle set exhibiting a misaligned batch classification: two input
texts get a single-element result list, while the per-item path would
fail every item. -/
def misalignedBatchOracles : EnrichOracles where
  batchClassify := fun _ => .ok [⟨1, 9/10⟩]
  itemClassify := fun _ => .error ()
  updateOne := fun _ _ => .error ()
  updateBatch := fun _ => .ok 1

/-- C3 counterexample. Two posts with non-empty text are fetched and batch
classification returns a result list of length 1 — misaligned with the
two input texts. The claim requires a fall back to per-item
classification for every post of the batch (which, with the per-item
oracle failing on every item, would end with `processed = 0` and
`errors = 2`); the code instead consumes the single result pairwise,
finishing with `processed = 1`, `updated = 1`, `errors = 0`, and never
touches the per-item path. -/
theorem C3_counterexample :
    processMissingSentiments misalignedBatchOracles
        [⟨"a", "great quarter"⟩, ⟨"b", "weak guidance"⟩] 100
      = ⟨1, 1, 0⟩ ∧
      processMissingSentiments misalignedBatchOracles
          [⟨"a", "great quarter"⟩, ⟨"b", "weak guidance"⟩] 100
        ≠ perItemPass misalignedBatchOracles ⟨0, 0, 0⟩
            [⟨"a", "great quarter"⟩, ⟨"b", "weak guidance"⟩] := by
  exact ⟨by decide, by decide⟩

/-- C3 amended. The workflow falls back to per-item classification exactly
when `batch_analyze_sentiment` raises: for a batch whose non-empty texts
make the batch classifier raise, the batch's outcome is the per-item pass
(one classify and one update per post, empty texts counted as errors
again, each per-item success counting as processed and each failure as an
error) started from the counters that already include the empty-text
errors. A malformed or misaligned (but non-raising) batch result does not
trigger this workflow-level fallback. -/
theorem C3_fallback_on_exception (O : EnrichOracles) (acc : EnrichCounters)
    (batch : List Tweet)
    (hne : batch.filter (fun t => !textEmpty t) ≠ [])
    (h : O.batchClassify ((batch.filter (fun t => !textEmpty t)).map Tweet.text)
        = .error ()) :
    processBatch O acc batch
      = perItemPass O
          { acc with errors := acc.errors + (batch.filter textEmpty).length }
          batch := by
  have hne' : (batch.filter (fun t => !textEmpty t)).isEmpty = false :=
    isEmpty_false_of_length_ne _ (by
      intro h0
      exact hne (List.length_eq_zero.mp h0))
  rw [processBatch]
  simp only [hne', Bool.false_eq_true, if_false, h]

/-- Oracle set whose batch classifier always raises. -/
def raisingBatchOracles : EnrichOracles where
  batchClassify := fun _ => .error ()
  itemClassify := fun _ => .ok ⟨0, 0⟩
  updateOne := fun _ _ => .ok 1
  updateBatch := fun _ => .ok 0

/-- Concrete instance of `C3_fallback_on_exception`: with a batch
classifier that raises, a batch of one empty-text and one non-empty post
is processed by the per-item pass. -/
theorem C3_fallback_on_exception_witness :
    processBatch raisingBatchOracles ⟨0, 0, 0⟩ [⟨"a", ""⟩, ⟨"b", "earnings beat"⟩]
      = perItemPass raisingBatchOracles
          { processed := 0, updated := 0,
            errors := 0 + ([⟨"a", ""⟩, ⟨"b", "earnings beat"⟩].filter textEmpty).length }
          [⟨"a", ""⟩, ⟨"b", "earnings beat"⟩] :=
  C3_fallback_on_exception raisingBatchOracles ⟨0, 0, 0⟩
    [⟨"a", ""⟩, ⟨"b", "earnings beat"⟩] (by decide) rfl

/-- A raw stock-CSV row after the chunk-level `pd.to_datetime(...,
errors="coerce")`: `date` is `none` when the Date cell failed to parse
(NaT), `some d` with the formatted date string otherwise. Prices are the
Open/High/Low/Close floats, `volume` the Volume integer. -/
structure RawPriceRow where
  date : Option String
  open_price : ℚ
  high_price : ℚ
  low_price : ℚ
  close_price : ℚ
  volume : Int
deriving Repr, DecidableEq

/-- The row dictionary appended for the stock UNWIND upsert
(pipeline.py lines 101-113). -/
structure PriceIngestRow where
  date : String
  open_price : ℚ
  high_price : ℚ
  low_price : ℚ
  close_price : ℚ
  volume : Int
  daily_change : ℚ
  volatility : ℚ
deriving Repr, DecidableEq

/-- Embeds the metric computation of the stock ingestion loop
(pipeline.py lines 92-113): `daily_change = (close - open) / open if open
!= 0 else 0.0` and `volatility = (high - low) / open if open != 0 else
0.0`, with all other fields carried over. -/
def buildPriceRow (d : String) (r : RawPriceRow) : PriceIngestRow :=
  { date := d,
    open_price := r.open_price,
    high_price := r.high_price,
    low_price := r.low_price,
    close_price := r.close_price,
    volume := r.volume,
    daily_change :=
      if r.open_price ≠ 0 then (r.close_price - r.open_price) / r.open_price else 0,
    volatility :=
      if r.open_price ≠ 0 then (r.high_price - r.low_price) / r.open_price else 0 }

/-- Embeds the per-chunk row loop of the stock ingestion (pipeline.py
lines 88-113, after the ticker/date-window mask): a row is skipped only
when its Date is NaT (`pd.isna(row["Date"])`); every other row is built
and appended. -/
def ingestPriceRows (rows : List RawPriceRow) : List PriceIngestRow :=
  rows.filterMap (fun r =>
    match r.date with
    | none => none
    | some d => some (buildPriceRow d r))

/-- C2. Safe division in the price metrics: when `open = 0` both
`daily_change` and `volatility` are 0 and the row is still ingested (it
appears in the output of the row loop); when `open ≠ 0` they are
`(close - open) / open` and `(high - low) / open`. -/
theorem C2_safe_division (r : RawPriceRow) (rows : List RawPriceRow)
    (d : String) (hmem : r ∈ rows) (hd : r.date = some d) :
    (r.open_price = 0 →
      (buildPriceRow d r).daily_change = 0 ∧ (buildPriceRow d r).volatility = 0) ∧
      (r.open_price ≠ 0 →
        (buildPriceRow d r).daily_change
            = (r.close_price - r.open_price) / r.open_price ∧
          (buildPriceRow d r).volatility
            = (r.high_price - r.low_price) / r.open_price) ∧
      buildPriceRow d r ∈ ingestPriceRows rows := by
  refine ⟨?_, ?_, ?_⟩
  · intro h0
    simp [buildPriceRow, h0]
  · intro h0
    simp [buildPriceRow, h0]
  · rw [ingestPriceRows]
    refine List.mem_filterMap.mpr ⟨r, hmem, ?_⟩
    rw [hd]

/-- Concrete instance of `C2_safe_division`: a row with `open = 0`,
`high = 5`, `low = 1`, `close = 3` is ingested with both metrics 0. -/
theorem C2_safe_division_witness :
    ((⟨some "2021-10-01", 0, 5, 1, 3, 100⟩ : RawPriceRow).open_price = 0 →
      (buildPriceRow "2021-10-01" ⟨some "2021-10-01", 0, 5, 1, 3, 100⟩).daily_change = 0 ∧
        (buildPriceRow "2021-10-01" ⟨some "2021-10-01", 0, 5, 1, 3, 100⟩).volatility = 0) ∧
      ((⟨some "2021-10-01", 0, 5, 1, 3, 100⟩ : RawPriceRow).open_price ≠ 0 →
        (buildPriceRow "2021-10-01" ⟨some "2021-10-01", 0, 5, 1, 3, 100⟩).daily_change
            = ((3:ℚ) - 0) / 0 ∧
          (buildPriceRow "2021-10-01" ⟨some "2021-10-01", 0, 5, 1, 3, 100⟩).volatility
            = ((5:ℚ) - 1) / 0) ∧
      buildPriceRow "2021-10-01" ⟨some "2021-10-01", 0, 5, 1, 3, 100⟩
        ∈ ingestPriceRows [⟨some "2021-10-01", 0, 5, 1, 3, 100⟩] :=
  C2_safe_division ⟨some "2021-10-01", 0, 5, 1, 3, 100⟩
    [⟨some "2021-10-01", 0, 5, 1, 3, 100⟩] "2021-10-01"
    (List.mem_singleton.mpr rfl) rfl

/-- Models Python's `str.strip()` for ASCII whitespace: leading and
trailing whitespace characters removed, working on the underlying
character list (the byte-position based `String.trim` does not reduce in
the kernel). -/
def pyStrip (s : String) : String :=
  ⟨((s.data.dropWhile Char.isWhitespace).reverse.dropWhile Char.isWhitespace).reverse⟩

/-- The result of resolving an optional date-string parameter of
`dataset_to_graph`: either the documented default was substituted or the
given string goes on to `pd.to_datetime`. -/
inductive ResolvedDate where
  | defaulted (d : String)
  | parsed (s : String)
deriving Repr, DecidableEq

/-- Embeds the date-parameter validation of `dataset_to_graph`
(pipeline.py lines 51-63): the request value is used only when it is
truthy (non-None and non-empty), its `strip()` is truthy (not
whitespace-only), and it differs from the literal placeholder
`"string"`; otherwise the default date is substituted. -/
def resolveDateParam (d : Option String) (defaultDate : String) : ResolvedDate :=
  match d with
  | none => .defaulted defaultDate
  | some s =>
    if s ≠ "" ∧ pyStrip s ≠ "" ∧ s ≠ "string" then .parsed s
    else .defaulted defaultDate

/-- Embeds `default_start = pd.to_datetime("2015-01-01")`
(pipeline.py line 51). -/
def defaultStartDate : String := "2015-01-01"

/-- Embeds `default_end = pd.to_datetime("2024-01-01")`
(pipeline.py line 52). -/
def defaultEndDate : String := "2024-01-01"

/-- Resolution of the request's start date (pipeline.py lines 54-58). -/
def resolveStartDate (d : Option String) : ResolvedDate :=
  resolveDateParam d defaultStartDate

/-- Resolution of the request's end date (pipeline.py lines 59-63). -/
def resolveEndDate (d : Option String) : ResolvedDate :=
  resolveDateParam d defaultEndDate

/-- C9. A pipeline start or end date that is absent, empty,
whitespace-only, or the literal placeholder "string" is replaced by the
documented default window 2015-01-01 to 2024-01-01 instead of being
parsed. -/
theorem C9_date_placeholder_fallback (d : Option String)
    (h : d = none ∨ d = some "" ∨ (∃ s, d = some s ∧ pyStrip s = "")
      ∨ d = some "string") :
    resolveStartDate d = .defaulted "2015-01-01" ∧
      resolveEndDate d = .defaulted "2024-01-01" := by
  rcases h with h | h | ⟨s, hs, htrim⟩ | h
  · subst h
    exact ⟨rfl, rfl⟩
  · subst h
    exact ⟨rfl, rfl⟩
  · subst hs
    constructor <;>
      simp [resolveStartDate, resolveEndDate, resolveDateParam, htrim,
        defaultStartDate, defaultEndDate]
  · subst h
    constructor <;>
      simp [resolveStartDate, resolveEndDate, resolveDateParam,
        defaultStartDate, defaultEndDate]

/-- Concrete instance of `C9_date_placeholder_fallback`: a whitespace-only
date string falls back to the default window. -/
theorem C9_date_placeholder_fallback_witness :
    resolveStartDate (some "   ") = .defaulted "2015-01-01" ∧
      resolveEndDate (some "   ") = .defaulted "2024-01-01" :=
  C9_date_placeholder_fallback (some "   ")
    (Or.inr (Or.inr (Or.inl ⟨"   ", rfl, by decide⟩)))

/-- Embeds the end-date widening of the FETCH query construction
(sentiment_workflow.py lines 59-67): the value bound to the `$end_date`
query parameter is `end_date + "T23:59:59"` when the given string
contains no 'T' and is exactly 10 characters long, and the given string
verbatim otherwise; `none` when no end date filter is requested.
Character containment and length are computed on the underlying
character list, matching Python's `"T" not in end_date` and
`len(end_date) == 10`. -/
def endDateFilterParam : Option String → Option String
  | none => none
  | some ed =>
    if ¬ ed.data.contains 'T' ∧ ed.data.length = 10 then some (ed ++ "T23:59:59")
    else some ed

/-- Embeds the WHERE-condition list of the FETCH query
(sentiment_workflow.py lines 43-68): the base missing-sentiment
condition, then the start and end date comparisons when requested. -/
def fetchWhereConditions (start_date end_date : Option String) : List String :=
  ["(t.sentiment IS NULL OR $overwrite = true)"]
    ++ (if start_date.isSome then ["t.date >= $start_date"] else [])
    ++ (if end_date.isSome then ["t.date <= $end_date"] else [])

/-- C4. End-date widening: a bare 10-character end date with no 'T' is
bound to the `$end_date` parameter as `end_date ++ "T23:59:59"`, any
other end date verbatim, and the comparison used in the query is
`t.date <= $end_date`. -/
theorem C4_end_date_widening (ed : String) :
    ((¬ ed.data.contains 'T' ∧ ed.data.length = 10) →
      endDateFilterParam (some ed) = some (ed ++ "T23:59:59")) ∧
      ((ed.data.contains 'T' ∨ ed.data.length ≠ 10) →
        endDateFilterParam (some ed) = some ed) ∧
      "t.date <= $end_date" ∈ fetchWhereConditions none (some ed) := by
  refine ⟨?_, ?_, ?_⟩
  · intro h
    simp only [endDateFilterParam]
    rw [if_pos h]
  · intro h
    have h' : ¬ (¬ ed.data.contains 'T' ∧ ed.data.length = 10) := by
      rcases h with h | h
      · intro hc
        exact hc.1 h
      · intro hc
        exact h hc.2
    simp only [endDateFilterParam]
    rw [if_neg h']
  · simp [fetchWhereConditions]

/-- Concrete instance of `C4_end_date_widening`: "2023-01-02" is widened
to "2023-01-02T23:59:59", while "2023-01-02T12:00:00" is used
verbatim. -/
theorem C4_end_date_widening_witness :
    endDateFilterParam (some "2023-01-02") = some ("2023-01-02" ++ "T23:59:59") ∧
      endDateFilterParam (some "2023-01-02T12:00:00")
        = some "2023-01-02T12:00:00" :=
  ⟨(C4_end_date_widening "2023-01-02").1 (by decide),
    (C4_end_date_widening "2023-01-02T12:00:00").2.1 (Or.inl (by decide))⟩

/-- Embeds the sentiment/confidence cell handling of the tweet ingestion
loop (pipeline.py lines 176-180). `sentimentCell` is `some v` when the
CSV has a Sentiment column with a non-null value in this row (the
combined test `"Sentiment" in row and pd.notna(row["Sentiment"])`);
`hasConfidenceCol` says whether a Confidence column exists at all;
`confidenceCell` is the float read from it (`row.get("Confidence",
0.0)`). The returned pair is the (sentiment, confidence) written onto the
Tweet row, `none` standing for null. -/
def tweetSentimentPair (sentimentCell : Option ℚ) (hasConfidenceCol : Bool)
    (confidenceCell : ℚ) : Option ℚ × Option ℚ :=
  match sentimentCell with
  | none => (none, none)
  | some s => (some s, if hasConfidenceCol then some confidenceCell else none)

/-- C6 counterexample. A source row whose CSV has a Sentiment column with
value 1 but no Confidence column produces a row with sentiment set and
confidence null — the pair is partially set, refuting both-or-neither. -/
theorem C6_counterexample :
    (tweetSentimentPair (some 1) false 0).1.isSome = true ∧
      (tweetSentimentPair (some 1) false 0).2.isSome = false := by
  exact ⟨rfl, rfl⟩

/-- C6 amended. Whenever the source has a Confidence column, the
sentiment/confidence pair written by ingestion is both present or both
absent; the pair can be partial only in the degenerate shape where the
CSV carries a Sentiment column without any Confidence column. -/
theorem C6_pair_integrity (sentimentCell : Option ℚ) (confidenceCell : ℚ) :
    (tweetSentimentPair sentimentCell true confidenceCell).1.isSome
      = (tweetSentimentPair sentimentCell true confidenceCell).2.isSome := by
  cases sentimentCell <;> rfl

/-- Embeds the chunked CSV read `pd.read_csv(path,
chunksize=request.chunk_size)` (pipeline.py lines 82 and 160): the source
rows arrive in consecutive chunks of exactly the requested size, the last
chunk possibly shorter. The requested size is used as-is. -/
def readChunks {α : Type _} (chunkSize : Nat) (rows : List α) :
    List (List α) :=
  toBatches chunkSize rows

/-- Embeds the `chunk_size: int = 2000` default of `PipelineRequest`
(pipeline.py line 22). -/
def defaultChunkSize : Nat := 2000

/-- C7 counterexample. A requested chunk size of 7 is used as the
effective read size: the first chunk of a 200-row source has exactly 7
rows, and 7 does not lie in the claimed clamping range 100-5000 — no
clamping happens. -/
theorem C7_counterexample :
    ((readChunks 7 (List.range 200)).map List.length).head? = some 7 ∧
      ¬ (100 ≤ 7 ∧ 7 ≤ 5000) := by
  constructor
  · set_option maxRecDepth 10000 in decide
  · decide

/-- C7 amended. The chunked source reader bounds each batch by the
requested chunk size itself, with no clamping: for any positive requested
size, every produced chunk has at most that many rows and the chunks
together restore the source. -/
theorem C7_chunk_bound {α : Type _} (chunkSize : Nat) (rows : List α)
    (h : 0 < chunkSize) :
    (∀ c ∈ readChunks chunkSize rows, c.length ≤ chunkSize) ∧
      (readChunks chunkSize rows).flatten = rows :=
  ⟨toBatches_length_le chunkSize (Nat.pos_iff_ne_zero.mp h) rows,
    toBatches_join chunkSize (Nat.pos_iff_ne_zero.mp h) rows⟩

/-- Concrete instance of `C7_chunk_bound`: reading 20 rows with requested
chunk size 7 gives chunks of at most 7 rows concatenating to the
source. -/
theorem C7_chunk_bound_witness :
    (∀ c ∈ readChunks 7 (List.range 20), c.length ≤ 7) ∧
      (readChunks 7 (List.range 20)).flatten = List.range 20 :=
  C7_chunk_bound 7 (List.range 20) (by decide)

/-- Models the rendering `str(row["Date"])` of the timestamp parsed by
`pd.to_datetime(chunk["Date"], errors="coerce")` followed by
`.dt.tz_localize(None)` (pipeline.py lines 160-162), for ISO-8601 inputs
without timezone or fractional seconds: pandas renders the parsed
timestamp with a space between the date and time parts, and a bare
calendar date gains a midnight time. The repository performs exactly this
parse before hashing, so the hash input depends on this library
rendering, not on the raw source text. -/
def pdTimestampStr (raw : String) : String :=
  let spaced : String := ⟨raw.data.map (fun c => if c = 'T' then ' ' else c)⟩
  if raw.data.length = 10 then spaced ++ " 00:00:00" else spaced

/-- Embeds the hash input of the tweet id derivation `tweet_id =
hashlib.sha256((text + str(row["Date"])).encode()).hexdigest()`
(pipeline.py line 173): the tweet text concatenated with the parsed
timestamp's string rendering. -/
def tweetIdInput (text rawTimestamp : String) : String :=
  text ++ pdTimestampStr rawTimestamp

/-- The hash input according to the claim's words: the text concatenated
with the raw, unparsed timestamp string. Stated from the spec for
comparison with `tweetIdInput`. -/
def deriveIdInputSpec (text rawTimestamp : String) : String :=
  text ++ rawTimestamp

/-- Embeds the effect of the upsert `MERGE` on a Tweet node keyed by the
derived id (the tweet_cypher of pipeline.py lines 121-124 under the
uniqueness constraint on Tweet ids): the graph's set of tweet ids, as a
list, gains the id only when absent. -/
def mergeTweet (ids : List String) (tid : String) : List String :=
  if tid ∈ ids then ids else ids ++ [tid]

/-- C8 counterexample. For the raw source timestamp
"2021-10-01T01:02:03" the hash input actually used differs from the
claimed `text + rawTimestamp` concatenation: the code hashes the parsed
timestamp's rendering "2021-10-01 01:02:03", not the raw string. -/
theorem C8_counterexample :
    tweetIdInput "Great quarter" "2021-10-01T01:02:03"
      ≠ deriveIdInputSpec "Great quarter" "2021-10-01T01:02:03" := by
  decide

/-- C8 amended. The derived post id is a deterministic hash over the text
concatenated with the parsed timestamp's string rendering (so differently
formatted spellings of the same logical timestamp merge into one id,
rather than staying distinct); for any hash function, any graph state and
any (text, rawTimestamp) pair, re-ingesting the same row twice changes
nothing over ingesting it once, and from an empty graph the id occurs
exactly once. -/
theorem C8_id_idempotent (hash : String → String) (ids : List String)
    (text rawTimestamp : String) :
    mergeTweet (mergeTweet ids (hash (tweetIdInput text rawTimestamp)))
        (hash (tweetIdInput text rawTimestamp))
      = mergeTweet ids (hash (tweetIdInput text rawTimestamp)) ∧
      (mergeTweet (mergeTweet [] (hash (tweetIdInput text rawTimestamp)))
          (hash (tweetIdInput text rawTimestamp))).count
          (hash (tweetIdInput text rawTimestamp)) = 1 := by
  constructor
  · by_cases h : hash (tweetIdInput text rawTimestamp) ∈ ids
    · simp [mergeTweet, h]
    · simp [mergeTweet, h]
  · simp [mergeTweet]
